import Mathlib

/-!
Shallow embedding of the PyPortal alarm-clock control logic (code.py).

Timestamps (time.monotonic values) are modelled as integers; Python
truthiness of a stored timestamp (None and 0.0 are both falsy) is made
explicit through truthyTime.  Display, backlight, font and rendering
calls have no effect on the control state and are dropped; the audio
playback call and every change_to_state call are recorded as effects.
Network calls that may raise a caught RuntimeError are modelled by
success flags in the per-tick environment.
-/

namespace AlarmClock

/-- A touch sample: x and y coordinates plus pressure, as read from the
touchscreen each loop iteration. -/
structure Touch where
  x : Int
  y : Int
  z : Int
deriving DecidableEq

/-- A rectangular hit region; on the rotated display the left edge is
numerically larger than the right edge. -/
structure Btn where
  left : Int
  top : Int
  right : Int
  bottom : Int
deriving DecidableEq

/-- touch_in_button from code.py: (b.left >= t.x >= b.right) and
(b.top <= t.y <= b.bottom). -/
def touch_in_button (t : Touch) (b : Btn) : Bool :=
  decide (b.left ≥ t.x) && decide (t.x ≥ b.right) &&
    decide (b.top ≤ t.y) && decide (t.y ≤ b.bottom)

/-- Python truthiness of an optional timestamp: None and 0 are falsy. -/
def truthyTime : Option Int → Bool
  | none => false
  | some t => decide (t ≠ 0)

/-- The inline refresh-gate condition used three times in Time_State.tick:
(not last) or ((now - last) > interval).  Note the strict comparison. -/
def timerGate (last : Option Int) (now interval : Int) : Bool :=
  !truthyTime last || decide (now - last.getD 0 > interval)

/-- alarm_interval = 5.0: seconds between repeated alarm soundings. -/
def alarm_interval : Int := 5

/-- snooze_interval = 600.0: seconds a snooze suppresses the alarm. -/
def snooze_interval : Int := 600

/-- The four states registered in the states dictionary. -/
inductive SName where
  | time
  | mugsy
  | alarm
  | settings
deriving DecidableEq

/-- The mutable control state: module globals plus the control-relevant
instance fields of the four singleton state objects. -/
structure Sys where
  alarm_enabled : Bool
  alarm_armed : Bool
  alarm_hour : Int
  alarm_minute : Int
  snooze_time : Option Int
  low_light : Bool
  refresh_time : Option Int
  weather_refresh : Option Int
  update_time : Option Int
  sound_alarm_time : Option Int
  previous_touch : Option Touch
  current : SName
deriving DecidableEq

/-- Per-iteration environment: the raw snooze-button line (pull-up, so
false means pressed), the light sensor, the local wall-clock time, and
whether the network time-sync and weather fetch would succeed. -/
structure Env where
  snooze_button_value : Bool
  light_value : Int
  local_hour : Int
  local_minute : Int
  time_sync_ok : Bool
  weather_ok : Bool
deriving DecidableEq

/-- Observable effects of a handler invocation. -/
inductive Effect where
  | playFile
  | changeState (target : SName)
deriving DecidableEq

/-- Result of one handler invocation: the new control state and the
effects it performed, in order. -/
structure Step where
  sys : Sys
  effects : List Effect
deriving DecidableEq

/-- Number of change_to_state calls recorded in an effect list. -/
def transCount (es : List Effect) : Nat :=
  es.countP fun e => match e with
    | Effect.changeState _ => true
    | _ => false

/-- Buttons of Time_State (and, by inheritance, Mugsy_State). -/
def settingsButton : Btn := ⟨320, 50, 240, 120⟩

/-- Second Time_State button: transitions to the mugsy state. -/
def mugsyButton : Btn := ⟨320, 155, 240, 220⟩

/-- Setting_State button 0: enable the alarm. -/
def onButton : Btn := ⟨320, 30, 240, 93⟩

/-- Setting_State button 1: return to the time state. -/
def returnButton : Btn := ⟨320, 98, 240, 152⟩

/-- Setting_State button 2: disable the alarm. -/
def offButton : Btn := ⟨320, 155, 240, 220⟩

/-- Setting_State button 3: the hour-adjust drag zone. -/
def hoursButton : Btn := ⟨240, 0, 120, 240⟩

/-- Setting_State button 4: the minute-adjust drag zone. -/
def minutesButton : Btn := ⟨120, 0, 0, 240⟩

/-- State.exit / Alarm_State.exit.  The default exit only clears
rendered elements; Alarm_State.exit additionally sets
alarm_armed = bool(snooze_time). -/
def stateExit (s : Sys) : Sys :=
  match s.current with
  | SName.alarm => { s with alarm_armed := truthyTime s.snooze_time }
  | _ => s

/-- enter of the target state.  Time/Mugsy enter force the
light-based backlight adjustment (low_light becomes light <= 1000);
Alarm enter stamps sound_alarm_time with the current monotonic time and
leaves low-light mode; Settings enter only renders. -/
def stateEnter (s : Sys) (target : SName) (now lightv : Int) : Sys :=
  match target with
  | SName.time => { s with current := SName.time, low_light := decide (lightv ≤ 1000) }
  | SName.mugsy => { s with current := SName.mugsy, low_light := decide (lightv ≤ 1000) }
  | SName.alarm =>
    { s with current := SName.alarm, sound_alarm_time := some now, low_light := false }
  | SName.settings => { s with current := SName.settings }

/-- change_to_state: exit the current state, then enter the target. -/
def change_to_state (s : Sys) (target : SName) (now lightv : Int) : Step :=
  ⟨stateEnter (stateExit s) target now lightv, [Effect.changeState target]⟩

/-- adjust_backlight_based_on_light without force (the tick path):
hysteresis between the 1000 and 2000 raw-light thresholds. -/
def backlightStep (s : Sys) (lightv : Int) : Sys :=
  { s with low_light :=
      if lightv ≤ 1000 ∧ s.low_light = false then true
      else if 2000 ≤ lightv ∧ s.low_light = true then false
      else s.low_light }

/-- The time-sync block of Time_State.tick: when the hourly gate is open,
attempt get_local_time; stamp refresh_time only on success (a RuntimeError
is caught and nothing is stamped). -/
def timeSyncStep (s : Sys) (ok : Bool) (now : Int) : Sys :=
  { s with refresh_time :=
      if timerGate s.refresh_time now 3600 ∧ ok = true then some now
      else s.refresh_time }

/-- The weather block of Time_State.tick: when the 600 s gate is open,
attempt the fetch; stamp weather_refresh only on success. -/
def weatherStep (s : Sys) (ok : Bool) (now : Int) : Sys :=
  { s with weather_refresh :=
      if timerGate s.weather_refresh now 600 ∧ ok = true then some now
      else s.weather_refresh }

/-- The display-update block of Time_State.tick: when the 30 s gate is
open, stamp update_time, redraw the time, and run the minute-boundary
alarm check (skipped entirely while a snooze is pending). -/
def displayStep (s : Sys) (env : Env) (now : Int) : Step :=
  if timerGate s.update_time now 30 then
    if truthyTime s.snooze_time then ⟨{ s with update_time := some now }, []⟩
    else if env.local_hour * 60 + env.local_minute =
        s.alarm_hour * 60 + s.alarm_minute then
      if s.alarm_armed then
        change_to_state { s with update_time := some now } SName.alarm now
          env.light_value
      else ⟨{ s with update_time := some now }, []⟩
    else ⟨{ s with update_time := some now, alarm_armed := s.alarm_enabled }, []⟩
  else ⟨s, []⟩

/-- The middle of Time_State.tick: backlight adjustment, then the
time-sync block, then the weather block, in source order. -/
def midSteps (s : Sys) (env : Env) (now : Int) : Sys :=
  weatherStep (timeSyncStep (backlightStep s env.light_value)
    env.time_sync_ok now) env.weather_ok now

/-- Time_State.tick. -/
def timeTick (s : Sys) (env : Env) (now : Int) : Step :=
  let s0 : Sys :=
    if env.snooze_button_value = false then
      { s with snooze_time := none, alarm_armed := false }
    else s
  if truthyTime s0.snooze_time ∧ now - s0.snooze_time.getD 0 ≥ snooze_interval then
    change_to_state s0 SName.alarm now env.light_value
  else
    displayStep (midSteps s0 env now) env now

/-- Time_State.touch (also inherited by Mugsy_State): edge-triggered;
hit-test the settings and mugsy buttons in order, transitioning on the
first hit. -/
def timeTouch (s : Sys) (t : Option Touch) (touched : Bool) (now lightv : Int) : Step :=
  match t with
  | none => ⟨s, []⟩
  | some tt =>
    if touched = false then
      if touch_in_button tt settingsButton then
        change_to_state s SName.settings now lightv
      else if touch_in_button tt mugsyButton then
        change_to_state s SName.mugsy now lightv
      else ⟨s, []⟩
    else ⟨s, []⟩

/-- Mugsy_State.tick: immediately transition back to the time state. -/
def mugsyTick (s : Sys) (env : Env) (now : Int) : Step :=
  change_to_state s SName.time now env.light_value

/-- Alarm_State.tick: a pressed snooze button records the snooze start
and transitions to the time state; otherwise sound the alarm again once
alarm_interval has strictly elapsed since the last sounding. -/
def alarmTick (s : Sys) (env : Env) (now : Int) : Step :=
  if env.snooze_button_value = false then
    change_to_state { s with snooze_time := some now } SName.time now env.light_value
  else if truthyTime s.sound_alarm_time ∧
      now - s.sound_alarm_time.getD 0 > alarm_interval then
    ⟨{ s with sound_alarm_time := some now }, [Effect.playFile]⟩
  else ⟨s, []⟩

/-- Alarm_State.touch: edge-triggered; any initial touch cancels the
snooze and transitions to the time state. -/
def alarmTouch (s : Sys) (t : Option Touch) (touched : Bool) (now lightv : Int) : Step :=
  match t with
  | none => ⟨s, []⟩
  | some _ =>
    if touched = false then
      change_to_state { s with snooze_time := none } SName.time now lightv
    else ⟨s, []⟩

/-- Setting_State.touch: level-triggered (the touched flag is unused).
The on/return/off buttons are checked first; otherwise, while the alarm
is enabled, a retained previous touch turns vertical motion inside the
hour or minute zone into a wrapping increment or decrement. -/
def settingTouch (s : Sys) (t : Option Touch) (touched : Bool) (now lightv : Int) : Step :=
  match t with
  | none => ⟨{ s with previous_touch := none }, []⟩
  | some tt =>
    if touch_in_button tt onButton then ⟨{ s with alarm_enabled := true }, []⟩
    else if touch_in_button tt returnButton then
      change_to_state s SName.time now lightv
    else if touch_in_button tt offButton then ⟨{ s with alarm_enabled := false }, []⟩
    else if s.alarm_enabled then
      match s.previous_touch with
      | none => ⟨{ s with previous_touch := some tt }, []⟩
      | some pt =>
        if touch_in_button tt hoursButton then
          if tt.y < pt.y then ⟨{ s with alarm_hour := (s.alarm_hour + 1) % 24 }, []⟩
          else if tt.y > pt.y then ⟨{ s with alarm_hour := (s.alarm_hour - 1) % 24 }, []⟩
          else ⟨s, []⟩
        else if touch_in_button tt minutesButton then
          if tt.y < pt.y then ⟨{ s with alarm_minute := (s.alarm_minute + 1) % 60 }, []⟩
          else if tt.y > pt.y then ⟨{ s with alarm_minute := (s.alarm_minute - 1) % 60 }, []⟩
          else ⟨s, []⟩
        else ⟨s, []⟩
    else ⟨s, []⟩

/-- Dispatch tick to the active state (Setting_State inherits the no-op
State.tick). -/
def doTick (s : Sys) (env : Env) (now : Int) : Step :=
  match s.current with
  | SName.time => timeTick s env now
  | SName.mugsy => mugsyTick s env now
  | SName.alarm => alarmTick s env now
  | SName.settings => ⟨s, []⟩

/-- Dispatch touch to the active state; every handler returns bool(t),
threaded by the main loop into the next iteration's touched flag. -/
def doTouch (s : Sys) (t : Option Touch) (touched : Bool) (now lightv : Int) :
    Step × Bool :=
  match s.current with
  | SName.time => (timeTouch s t touched now lightv, t.isSome)
  | SName.mugsy => (timeTouch s t touched now lightv, t.isSome)
  | SName.alarm => (alarmTouch s t touched now lightv, t.isSome)
  | SName.settings => (settingTouch s t touched now lightv, t.isSome)

/-- One main-loop iteration: one touch dispatch on the current state,
then one tick dispatch on the (possibly new) current state. -/
def loopStep (s : Sys) (t : Option Touch) (touched : Bool) (env : Env) (now : Int) :
    Step × Bool :=
  let r1 := doTouch s t touched now env.light_value
  let r2 := doTick r1.1.sys env now
  (⟨r2.sys, r1.1.effects ++ r2.effects⟩, r1.2)

/-- Modelled from the spec wording of the Timer Gate, for comparison with
the inline gate of the code: true iff lastFiredAt is absent or
now - lastFiredAt >= interval (non-strict). -/
def elapsedSpec (last : Option Int) (now interval : Int) : Bool :=
  last.isNone || decide (now - last.getD 0 ≥ interval)

section ConcreteSamples

/-- Clock state about to fire: alarm 23:20 enabled and armed, no snooze. -/
def sysFire : Sys := ⟨true, true, 23, 20, none, false, none, none, none, none, none, SName.time⟩

/-- Clock state with a pending snooze (started at 5) and armed false. -/
def sysSnooze : Sys := ⟨true, false, 23, 20, some 5, false, none, none, none, none, none, SName.time⟩

/-- Clock state with an elapsed snooze (started at 1). -/
def sysSnoozeOld : Sys := ⟨true, false, 23, 20, some 1, false, none, none, none, none, none, SName.time⟩

/-- Clock state whose hourly time-sync gate is exactly at the boundary. -/
def sysSync : Sys := ⟨true, true, 23, 20, none, false, some 1, none, none, none, none, SName.time⟩

/-- Alarm state entered at time 10, no snooze yet. -/
def sysAlarm : Sys := ⟨true, false, 23, 20, none, false, none, none, none, some 10, none, SName.alarm⟩

/-- Settings state mid-drag with a previous touch at y = 100. -/
def sysDrag : Sys := ⟨true, false, 5, 30, none, false, none, none, none, none, some ⟨200, 100, 1⟩, SName.settings⟩

/-- Settings state mid-drag in the minute zone, previous touch y = 100. -/
def sysDragMin : Sys := ⟨true, false, 5, 30, none, false, none, none, none, none, some ⟨60, 100, 1⟩, SName.settings⟩

/-- Environment: button released, bright light, wall clock 23:21, network up. -/
def envIdle : Env := ⟨true, 1500, 23, 21, true, true⟩

/-- Environment: button released, wall clock 23:20 (matching the alarm). -/
def envMatch : Env := ⟨true, 1500, 23, 20, true, true⟩

/-- Environment: snooze button pressed, wall clock 23:20. -/
def envPress : Env := ⟨false, 1500, 23, 20, true, true⟩

/-- A touch inside the mugsy button of the clock screen. -/
def touchMugsy : Touch := ⟨280, 180, 100⟩

/-- Environment with both network operations failing. -/
def envFail : Env := ⟨true, 1500, 23, 21, false, false⟩

end ConcreteSamples

section HelperLemmas

@[simp]
lemma stateExit_snooze (s : Sys) : (stateExit s).snooze_time = s.snooze_time := by
  unfold stateExit; split <;> rfl

@[simp]
lemma stateExit_hour (s : Sys) : (stateExit s).alarm_hour = s.alarm_hour := by
  unfold stateExit; split <;> rfl

@[simp]
lemma stateExit_minute (s : Sys) : (stateExit s).alarm_minute = s.alarm_minute := by
  unfold stateExit; split <;> rfl

@[simp]
lemma stateExit_enabled (s : Sys) : (stateExit s).alarm_enabled = s.alarm_enabled := by
  unfold stateExit; split <;> rfl

@[simp]
lemma stateExit_update (s : Sys) : (stateExit s).update_time = s.update_time := by
  unfold stateExit; split <;> rfl

@[simp]
lemma stateExit_refresh (s : Sys) : (stateExit s).refresh_time = s.refresh_time := by
  unfold stateExit; split <;> rfl

@[simp]
lemma stateExit_weather (s : Sys) : (stateExit s).weather_refresh = s.weather_refresh := by
  unfold stateExit; split <;> rfl

@[simp]
lemma stateExit_current (s : Sys) : (stateExit s).current = s.current := by
  unfold stateExit; split <;> rfl

@[simp]
lemma stateEnter_snooze (s : Sys) (tgt : SName) (now l : Int) :
    (stateEnter s tgt now l).snooze_time = s.snooze_time := by
  cases tgt <;> rfl

@[simp]
lemma stateEnter_armed (s : Sys) (tgt : SName) (now l : Int) :
    (stateEnter s tgt now l).alarm_armed = s.alarm_armed := by
  cases tgt <;> rfl

@[simp]
lemma stateEnter_hour (s : Sys) (tgt : SName) (now l : Int) :
    (stateEnter s tgt now l).alarm_hour = s.alarm_hour := by
  cases tgt <;> rfl

@[simp]
lemma stateEnter_minute (s : Sys) (tgt : SName) (now l : Int) :
    (stateEnter s tgt now l).alarm_minute = s.alarm_minute := by
  cases tgt <;> rfl

@[simp]
lemma stateEnter_enabled (s : Sys) (tgt : SName) (now l : Int) :
    (stateEnter s tgt now l).alarm_enabled = s.alarm_enabled := by
  cases tgt <;> rfl

@[simp]
lemma stateEnter_update (s : Sys) (tgt : SName) (now l : Int) :
    (stateEnter s tgt now l).update_time = s.update_time := by
  cases tgt <;> rfl

@[simp]
lemma stateEnter_refresh (s : Sys) (tgt : SName) (now l : Int) :
    (stateEnter s tgt now l).refresh_time = s.refresh_time := by
  cases tgt <;> rfl

@[simp]
lemma stateEnter_weather (s : Sys) (tgt : SName) (now l : Int) :
    (stateEnter s tgt now l).weather_refresh = s.weather_refresh := by
  cases tgt <;> rfl

@[simp]
lemma stateEnter_current (s : Sys) (tgt : SName) (now l : Int) :
    (stateEnter s tgt now l).current = tgt := by
  cases tgt <;> rfl

@[simp]
lemma change_sys_snooze (s : Sys) (tgt : SName) (now l : Int) :
    (change_to_state s tgt now l).sys.snooze_time = s.snooze_time := by
  simp [change_to_state]

@[simp]
lemma change_sys_hour (s : Sys) (tgt : SName) (now l : Int) :
    (change_to_state s tgt now l).sys.alarm_hour = s.alarm_hour := by
  simp [change_to_state]

@[simp]
lemma change_sys_minute (s : Sys) (tgt : SName) (now l : Int) :
    (change_to_state s tgt now l).sys.alarm_minute = s.alarm_minute := by
  simp [change_to_state]

@[simp]
lemma change_sys_enabled (s : Sys) (tgt : SName) (now l : Int) :
    (change_to_state s tgt now l).sys.alarm_enabled = s.alarm_enabled := by
  simp [change_to_state]

@[simp]
lemma change_sys_update (s : Sys) (tgt : SName) (now l : Int) :
    (change_to_state s tgt now l).sys.update_time = s.update_time := by
  simp [change_to_state]

@[simp]
lemma change_sys_refresh (s : Sys) (tgt : SName) (now l : Int) :
    (change_to_state s tgt now l).sys.refresh_time = s.refresh_time := by
  simp [change_to_state]

@[simp]
lemma change_sys_weather (s : Sys) (tgt : SName) (now l : Int) :
    (change_to_state s tgt now l).sys.weather_refresh = s.weather_refresh := by
  simp [change_to_state]

@[simp]
lemma change_sys_current (s : Sys) (tgt : SName) (now l : Int) :
    (change_to_state s tgt now l).sys.current = tgt := by
  simp [change_to_state]

@[simp]
lemma change_effects (s : Sys) (tgt : SName) (now l : Int) :
    (change_to_state s tgt now l).effects = [Effect.changeState tgt] := rfl

lemma change_armed_of_ne (s : Sys) (tgt : SName) (now l : Int)
    (h : s.current ≠ SName.alarm) :
    (change_to_state s tgt now l).sys.alarm_armed = s.alarm_armed := by
  simp only [change_to_state, stateEnter_armed]
  unfold stateExit
  split
  · rename_i heq; exact absurd heq h
  · rfl

lemma change_armed_of_alarm (s : Sys) (tgt : SName) (now l : Int)
    (h : s.current = SName.alarm) :
    (change_to_state s tgt now l).sys.alarm_armed = truthyTime s.snooze_time := by
  simp only [change_to_state, stateEnter_armed]
  unfold stateExit
  split
  · rfl
  · rename_i heq; exact absurd h heq

@[simp]
lemma midSteps_snooze (s : Sys) (env : Env) (now : Int) :
    (midSteps s env now).snooze_time = s.snooze_time := rfl

@[simp]
lemma midSteps_armed (s : Sys) (env : Env) (now : Int) :
    (midSteps s env now).alarm_armed = s.alarm_armed := rfl

@[simp]
lemma midSteps_hour (s : Sys) (env : Env) (now : Int) :
    (midSteps s env now).alarm_hour = s.alarm_hour := rfl

@[simp]
lemma midSteps_minute (s : Sys) (env : Env) (now : Int) :
    (midSteps s env now).alarm_minute = s.alarm_minute := rfl

@[simp]
lemma midSteps_enabled (s : Sys) (env : Env) (now : Int) :
    (midSteps s env now).alarm_enabled = s.alarm_enabled := rfl

@[simp]
lemma midSteps_update (s : Sys) (env : Env) (now : Int) :
    (midSteps s env now).update_time = s.update_time := rfl

@[simp]
lemma midSteps_current (s : Sys) (env : Env) (now : Int) :
    (midSteps s env now).current = s.current := rfl

@[simp]
lemma midSteps_sound (s : Sys) (env : Env) (now : Int) :
    (midSteps s env now).sound_alarm_time = s.sound_alarm_time := rfl

lemma midSteps_refreshTime (s : Sys) (env : Env) (now : Int) :
    (midSteps s env now).refresh_time =
      if timerGate s.refresh_time now 3600 ∧ env.time_sync_ok = true then some now
      else s.refresh_time := rfl

lemma midSteps_weatherTime (s : Sys) (env : Env) (now : Int) :
    (midSteps s env now).weather_refresh =
      if timerGate s.weather_refresh now 600 ∧ env.weather_ok = true then some now
      else s.weather_refresh := rfl

lemma displayStep_closed (s : Sys) (env : Env) (now : Int)
    (hg : ¬ timerGate s.update_time now 30 = true) :
    displayStep s env now = ⟨s, []⟩ := by
  unfold displayStep
  rw [if_neg hg]

lemma displayStep_snoozing (s : Sys) (env : Env) (now : Int)
    (hg : timerGate s.update_time now 30 = true)
    (hs : truthyTime s.snooze_time = true) :
    displayStep s env now = ⟨{ s with update_time := some now }, []⟩ := by
  unfold displayStep
  rw [if_pos hg, if_pos hs]

lemma displayStep_fire (s : Sys) (env : Env) (now : Int)
    (hg : timerGate s.update_time now 30 = true)
    (hs : truthyTime s.snooze_time = false)
    (hm : env.local_hour * 60 + env.local_minute =
      s.alarm_hour * 60 + s.alarm_minute)
    (ha : s.alarm_armed = true) :
    displayStep s env now =
      change_to_state { s with update_time := some now } SName.alarm now
        env.light_value := by
  unfold displayStep
  rw [if_pos hg, if_neg (by simp only [hs]; exact Bool.false_ne_true),
    if_pos hm, if_pos ha]

lemma displayStep_noFire (s : Sys) (env : Env) (now : Int)
    (hg : timerGate s.update_time now 30 = true)
    (hs : truthyTime s.snooze_time = false)
    (hm : env.local_hour * 60 + env.local_minute =
      s.alarm_hour * 60 + s.alarm_minute)
    (ha : s.alarm_armed = false) :
    displayStep s env now = ⟨{ s with update_time := some now }, []⟩ := by
  unfold displayStep
  rw [if_pos hg, if_neg (by simp only [hs]; exact Bool.false_ne_true),
    if_pos hm, if_neg (by simp only [ha]; exact Bool.false_ne_true)]

lemma displayStep_rearm (s : Sys) (env : Env) (now : Int)
    (hg : timerGate s.update_time now 30 = true)
    (hs : truthyTime s.snooze_time = false)
    (hm : ¬ env.local_hour * 60 + env.local_minute =
      s.alarm_hour * 60 + s.alarm_minute) :
    displayStep s env now =
      ⟨{ s with update_time := some now, alarm_armed := s.alarm_enabled }, []⟩ := by
  unfold displayStep
  rw [if_pos hg, if_neg (by simp only [hs]; exact Bool.false_ne_true), if_neg hm]

lemma timeTick_press (s : Sys) (env : Env) (now : Int)
    (hbtn : env.snooze_button_value = false) :
    timeTick s env now =
      displayStep (midSteps { s with snooze_time := none, alarm_armed := false }
        env now) env now := by
  unfold timeTick
  rw [hbtn]
  simp [truthyTime]

lemma timeTick_elapse (s : Sys) (env : Env) (now : Int)
    (hbtn : env.snooze_button_value = true)
    (hs : truthyTime s.snooze_time = true)
    (he : now - s.snooze_time.getD 0 ≥ snooze_interval) :
    timeTick s env now = change_to_state s SName.alarm now env.light_value := by
  unfold timeTick
  rw [hbtn]
  simp only [reduceCtorEq, if_neg, not_false_eq_true]
  rw [if_pos ⟨hs, he⟩]

lemma timeTick_noElapse (s : Sys) (env : Env) (now : Int)
    (hbtn : env.snooze_button_value = true)
    (h : ¬ (truthyTime s.snooze_time = true ∧
      now - s.snooze_time.getD 0 ≥ snooze_interval)) :
    timeTick s env now = displayStep (midSteps s env now) env now := by
  unfold timeTick
  rw [hbtn]
  simp only [reduceCtorEq, if_neg, not_false_eq_true]
  rw [if_neg h]

lemma alarmTick_press (s : Sys) (env : Env) (now : Int)
    (hbtn : env.snooze_button_value = false) :
    alarmTick s env now =
      change_to_state { s with snooze_time := some now } SName.time now
        env.light_value := by
  unfold alarmTick
  rw [hbtn]
  simp

lemma alarmTick_sound (s : Sys) (env : Env) (now : Int)
    (hbtn : env.snooze_button_value = true)
    (h : truthyTime s.sound_alarm_time = true ∧
      now - s.sound_alarm_time.getD 0 > alarm_interval) :
    alarmTick s env now =
      ⟨{ s with sound_alarm_time := some now }, [Effect.playFile]⟩ := by
  unfold alarmTick
  rw [hbtn]
  simp only [reduceCtorEq, if_neg, not_false_eq_true]
  rw [if_pos h]

lemma alarmTick_quiet (s : Sys) (env : Env) (now : Int)
    (hbtn : env.snooze_button_value = true)
    (h : ¬ (truthyTime s.sound_alarm_time = true ∧
      now - s.sound_alarm_time.getD 0 > alarm_interval)) :
    alarmTick s env now = ⟨s, []⟩ := by
  unfold alarmTick
  rw [hbtn]
  simp only [reduceCtorEq, if_neg, not_false_eq_true]
  rw [if_neg h]

lemma doTick_time (s : Sys) (env : Env) (now : Int) (h : s.current = SName.time) :
    doTick s env now = timeTick s env now := by
  unfold doTick
  rw [h]

lemma doTick_mugsy (s : Sys) (env : Env) (now : Int) (h : s.current = SName.mugsy) :
    doTick s env now = mugsyTick s env now := by
  unfold doTick
  rw [h]

lemma doTick_alarm (s : Sys) (env : Env) (now : Int) (h : s.current = SName.alarm) :
    doTick s env now = alarmTick s env now := by
  unfold doTick
  rw [h]

lemma doTick_settings (s : Sys) (env : Env) (now : Int)
    (h : s.current = SName.settings) :
    doTick s env now = ⟨s, []⟩ := by
  unfold doTick
  rw [h]

@[simp]
lemma displayStep_sysSnooze (s : Sys) (env : Env) (now : Int) :
    (displayStep s env now).sys.snooze_time = s.snooze_time := by
  unfold displayStep
  repeat' split
  all_goals simp

@[simp]
lemma displayStep_sysRefresh (s : Sys) (env : Env) (now : Int) :
    (displayStep s env now).sys.refresh_time = s.refresh_time := by
  unfold displayStep
  repeat' split
  all_goals simp

@[simp]
lemma displayStep_sysWeather (s : Sys) (env : Env) (now : Int) :
    (displayStep s env now).sys.weather_refresh = s.weather_refresh := by
  unfold displayStep
  repeat' split
  all_goals simp

@[simp]
lemma displayStep_sysHour (s : Sys) (env : Env) (now : Int) :
    (displayStep s env now).sys.alarm_hour = s.alarm_hour := by
  unfold displayStep
  repeat' split
  all_goals simp

@[simp]
lemma displayStep_sysMinute (s : Sys) (env : Env) (now : Int) :
    (displayStep s env now).sys.alarm_minute = s.alarm_minute := by
  unfold displayStep
  repeat' split
  all_goals simp

lemma displayStep_sysUpdate (s : Sys) (env : Env) (now : Int) :
    (displayStep s env now).sys.update_time =
      (if timerGate s.update_time now 30 = true then some now
       else s.update_time) := by
  unfold displayStep
  repeat' split
  all_goals simp_all

lemma timeTouch_snooze (s : Sys) (t : Option Touch) (touched : Bool)
    (now lightv : Int) :
    (timeTouch s t touched now lightv).sys.snooze_time = s.snooze_time := by
  unfold timeTouch
  repeat' split
  all_goals simp

lemma settingTouch_snooze (s : Sys) (t : Option Touch) (touched : Bool)
    (now lightv : Int) :
    (settingTouch s t touched now lightv).sys.snooze_time = s.snooze_time := by
  unfold settingTouch
  repeat' split
  all_goals simp

lemma transCount_append (l1 l2 : List Effect) :
    transCount (l1 ++ l2) = transCount l1 + transCount l2 := by
  unfold transCount
  exact List.countP_append _ _ _

@[simp]
lemma transCount_nil : transCount [] = 0 := rfl

@[simp]
lemma transCount_change (tgt : SName) :
    transCount [Effect.changeState tgt] = 1 := rfl

@[simp]
lemma transCount_play : transCount [Effect.playFile] = 0 := rfl

lemma displayStepTrans_le (s : Sys) (env : Env) (now : Int) :
    transCount (displayStep s env now).effects ≤ 1 := by
  unfold displayStep
  repeat' split
  all_goals simp

lemma touchTrans_le (s : Sys) (t : Option Touch) (touched : Bool)
    (now lightv : Int) :
    transCount (doTouch s t touched now lightv).1.effects ≤ 1 := by
  unfold doTouch timeTouch alarmTouch settingTouch
  repeat' split
  all_goals simp

lemma tickTrans_le (s : Sys) (env : Env) (now : Int) :
    transCount (doTick s env now).effects ≤ 1 := by
  cases hc : s.current
  case time =>
    cases hb : env.snooze_button_value
    case false =>
      rw [doTick_time s env now hc, timeTick_press s env now hb]
      exact displayStepTrans_le _ _ _
    case true =>
      by_cases he : truthyTime s.snooze_time = true ∧
        now - s.snooze_time.getD 0 ≥ snooze_interval
      · rw [doTick_time s env now hc, timeTick_elapse s env now hb he.1 he.2]
        simp
      · rw [doTick_time s env now hc, timeTick_noElapse s env now hb he]
        exact displayStepTrans_le _ _ _
  case mugsy =>
    rw [doTick_mugsy s env now hc]
    unfold mugsyTick
    simp
  case alarm =>
    cases hb : env.snooze_button_value
    case false =>
      rw [doTick_alarm s env now hc, alarmTick_press s env now hb]
      simp
    case true =>
      by_cases hcond : truthyTime s.sound_alarm_time = true ∧
        now - s.sound_alarm_time.getD 0 > alarm_interval
      · rw [doTick_alarm s env now hc, alarmTick_sound s env now hb hcond]
        simp
      · rw [doTick_alarm s env now hc, alarmTick_quiet s env now hb hcond]
        simp
  case settings =>
    rw [doTick_settings s env now hc]
    simp

lemma timeTouch_idle (s : Sys) (t : Option Touch) (touched : Bool)
    (now lightv : Int) (h : touched = true ∨ t = none) :
    timeTouch s t touched now lightv = ⟨s, []⟩ := by
  unfold timeTouch
  cases t with
  | none => rfl
  | some tt =>
    rcases h with h | h
    · simp [h]
    · exact absurd h (by simp)

lemma alarmTouch_idle (s : Sys) (t : Option Touch) (touched : Bool)
    (now lightv : Int) (h : touched = true ∨ t = none) :
    alarmTouch s t touched now lightv = ⟨s, []⟩ := by
  unfold alarmTouch
  cases t with
  | none => rfl
  | some tt =>
    rcases h with h | h
    · simp [h]
    · exact absurd h (by simp)

end HelperLemmas

/-- C1 counterexample: Clock state with a pending, unelapsed snooze
(started at 5, tick at 100), the display gate open and a non-matching
minute (clock 23:21, alarm 23:20, alarm enabled): the claim requires
alarm_armed to be reset to the enabled flag (true), but the tick leaves
it false because the whole minute check sits under the no-snooze guard. -/
theorem C1_cex :
    timerGate sysSnooze.update_time 100 30 = true ∧
    sysSnooze.alarm_enabled = true ∧
    ¬ envIdle.local_hour * 60 + envIdle.local_minute =
      sysSnooze.alarm_hour * 60 + sysSnooze.alarm_minute ∧
    (doTick sysSnooze envIdle 100).sys.alarm_armed = false := by
  exact ⟨by decide, by decide, by decide, by decide⟩

/-- C1 (amended): on a Clock-state tick where the snooze button is not
pressed and the pending-snooze re-fire does not trigger, an open display
gate runs the minute check: with no snooze pending, a matching minute
with the alarm armed transitions to Alarm, and a non-matching minute
resets armed to the enabled flag; with a snooze pending the check is
skipped and armed is unchanged. -/
theorem C1_minute_check (s : Sys) (env : Env) (now : Int)
    (hcur : s.current = SName.time)
    (hbtn : env.snooze_button_value = true)
    (hne : ¬ (truthyTime s.snooze_time = true ∧
      now - s.snooze_time.getD 0 ≥ snooze_interval))
    (hg : timerGate s.update_time now 30 = true) :
    (truthyTime s.snooze_time = false →
      env.local_hour * 60 + env.local_minute =
        s.alarm_hour * 60 + s.alarm_minute →
      s.alarm_armed = true →
      (doTick s env now).sys.current = SName.alarm ∧
      (doTick s env now).effects = [Effect.changeState SName.alarm]) ∧
    (truthyTime s.snooze_time = false →
      ¬ env.local_hour * 60 + env.local_minute =
        s.alarm_hour * 60 + s.alarm_minute →
      (doTick s env now).sys.alarm_armed = s.alarm_enabled ∧
      (doTick s env now).sys.current = SName.time ∧
      (doTick s env now).effects = []) ∧
    (truthyTime s.snooze_time = true →
      (doTick s env now).sys.alarm_armed = s.alarm_armed ∧
      (doTick s env now).sys.current = SName.time) := by
  rw [doTick_time s env now hcur, timeTick_noElapse s env now hbtn hne]
  refine ⟨?_, ?_, ?_⟩
  · intro hs hm ha
    rw [displayStep_fire (midSteps s env now) env now (by simpa using hg)
      (by simpa using hs) (by simpa using hm) (by simpa using ha)]
    exact ⟨by simp, by simp⟩
  · intro hs hm
    rw [displayStep_rearm (midSteps s env now) env now (by simpa using hg)
      (by simpa using hs) (by simpa using hm)]
    exact ⟨by simp, by simp [hcur], rfl⟩
  · intro hs
    rw [displayStep_snoozing (midSteps s env now) env now (by simpa using hg)
      (by simpa using hs)]
    exact ⟨by simp, by simp [hcur]⟩

/-- C1 witness: the amended fire branch at the concrete matching state
sysFire (alarm 23:20 armed, clock 23:20, gate open). -/
theorem C1_witness :
    (doTick sysFire envMatch 100).sys.current = SName.alarm :=
  ((C1_minute_check sysFire envMatch 100 rfl rfl (by decide) (by decide)).1
    (by decide) (by decide) (by decide)).1

/-- C2 counterexample: Clock state with a snooze started at 1, tick at
601 (the 600 s snooze interval has elapsed): the machine re-fires into
the Alarm state, but snooze_time is NOT cleared — it is still some 1 —
contradicting the claim that the elapse-and-re-fire path clears it. -/
theorem C2_cex :
    (doTick sysSnoozeOld envIdle 601).sys.current = SName.alarm ∧
    (doTick sysSnoozeOld envIdle 601).sys.snooze_time = some 1 := by
  exact ⟨by decide, by decide⟩

/-- C2 (amended): complete lifecycle of snooze_time. A tick clears it
exactly on the Clock-state snooze-button path (unconditionally, snoozed
or not) and overwrites it with now on the Alarm-state snooze-button path;
a touch clears it exactly on an edge-triggered Alarm-state touch; every
other tick or touch — including the snooze-elapse re-fire transition into
Alarm — leaves it unchanged. -/
theorem C2_snooze_lifecycle (s : Sys) (env : Env) (t : Option Touch)
    (touched : Bool) (now lightv : Int) :
    ((doTick s env now).sys.snooze_time =
      if s.current = SName.time ∧ env.snooze_button_value = false then none
      else if s.current = SName.alarm ∧ env.snooze_button_value = false then
        some now
      else s.snooze_time) ∧
    ((doTouch s t touched now lightv).1.sys.snooze_time =
      if s.current = SName.alarm ∧ t.isSome = true ∧ touched = false then none
      else s.snooze_time) := by
  constructor
  · cases hc : s.current
    case time =>
      cases hb : env.snooze_button_value
      case false =>
        rw [doTick_time s env now hc, timeTick_press s env now hb]
        simp [hc, hb]
      case true =>
        by_cases he : truthyTime s.snooze_time = true ∧
          now - s.snooze_time.getD 0 ≥ snooze_interval
        · rw [doTick_time s env now hc, timeTick_elapse s env now hb he.1 he.2]
          simp [hc, hb]
        · rw [doTick_time s env now hc, timeTick_noElapse s env now hb he]
          simp [hc, hb]
    case mugsy =>
      rw [doTick_mugsy s env now hc]
      simp [mugsyTick, hc]
    case alarm =>
      cases hb : env.snooze_button_value
      case false =>
        rw [doTick_alarm s env now hc, alarmTick_press s env now hb]
        simp [hc, hb]
      case true =>
        by_cases hcond : truthyTime s.sound_alarm_time = true ∧
          now - s.sound_alarm_time.getD 0 > alarm_interval
        · rw [doTick_alarm s env now hc, alarmTick_sound s env now hb hcond]
          simp [hc, hb]
        · rw [doTick_alarm s env now hc, alarmTick_quiet s env now hb hcond]
          simp [hc, hb]
    case settings =>
      rw [doTick_settings s env now hc]
      simp [hc]
  · cases hc : s.current
    case time =>
      unfold doTouch
      rw [hc]
      simp [hc, timeTouch_snooze]
    case mugsy =>
      unfold doTouch
      rw [hc]
      simp [hc, timeTouch_snooze]
    case alarm =>
      unfold doTouch
      rw [hc]
      unfold alarmTouch
      cases t with
      | none => simp [hc]
      | some tt =>
        cases touched with
        | false => simp [hc]
        | true => simp [hc]
    case settings =>
      unfold doTouch
      rw [hc]
      simp [hc, settingTouch_snooze]


/-- C4 (amended): every periodic refresh gate in Time_State.tick opens iff
the stored last-fired timestamp is absent (None, or the equally falsy
value 0) or now minus the timestamp STRICTLY exceeds the interval; the
decision is a pure function of its arguments, hence unchanged under
repeated evaluation. -/
theorem C4_timer_gate_strict (last : Option Int) (now interval : Int) :
    timerGate last now interval = true ↔
      last = none ∨ last = some 0 ∨ ∃ t, last = some t ∧ now - t > interval := by
  cases last with
  | none => simp [timerGate, truthyTime]
  | some t =>
    by_cases ht : t = 0
    · subst ht; simp [timerGate, truthyTime]
    · simp [timerGate, truthyTime, ht]

/-- C4 counterexample: with lastFiredAt = 1, now = 31, interval = 30 the
spec gate (now - last >= interval) opens but the code gate stays closed;
concretely a time-sync due exactly 3600 s after the previous one is not
attempted, so the claimed iff fails at this input. -/
theorem C4_cex :
    elapsedSpec (some 1) 31 30 = true ∧ timerGate (some 1) 31 30 = false ∧
    (timeTick sysSync envIdle 3601).sys.refresh_time = some 1 ∧
    elapsedSpec (some 1) 3601 3600 = true := by
  exact ⟨by decide, by decide, by decide, by decide⟩

/-- C10: on any Clock-state tick where the snooze-button line reads
active, snooze_time is cleared unconditionally (even with no snooze
pending), and when the wall clock matches the alarm time the alarm ends
the tick disarmed with no transition and no effects, so holding the
button through the matching minute suppresses firing. -/
theorem C10_button_suppresses (s : Sys) (env : Env) (now : Int)
    (hcur : s.current = SName.time)
    (hbtn : env.snooze_button_value = false)
    (hmatch : env.local_hour * 60 + env.local_minute =
      s.alarm_hour * 60 + s.alarm_minute) :
    (doTick s env now).sys.snooze_time = none ∧
    (doTick s env now).sys.alarm_armed = false ∧
    (doTick s env now).sys.current = SName.time ∧
    (doTick s env now).effects = [] := by
  rw [doTick_time s env now hcur, timeTick_press s env now hbtn]
  set m := midSteps { s with snooze_time := none, alarm_armed := false } env now
    with hm
  by_cases hg : timerGate m.update_time now 30 = true
  · rw [displayStep_noFire m env now hg (by simp [hm, truthyTime])
      (by simp [hm]; exact hmatch) (by simp [hm])]
    refine ⟨by simp [hm, truthyTime], by simp [hm], by simp [hm, hcur], rfl⟩
  · rw [displayStep_closed m env now hg]
    refine ⟨by simp [hm, truthyTime], by simp [hm], by simp [hm, hcur], rfl⟩

/-- C10 witness at a concrete state: clock 7:30 equals the alarm time,
snooze pending, button held. -/
theorem C10_witness :
    (doTick ⟨true, true, 7, 30, some 4, false, none, none, none, none, none,
      SName.time⟩ ⟨false, 1500, 7, 30, true, true⟩ 50).sys.snooze_time = none ∧
    (doTick ⟨true, true, 7, 30, some 4, false, none, none, none, none, none,
      SName.time⟩ ⟨false, 1500, 7, 30, true, true⟩ 50).sys.alarm_armed = false ∧
    (doTick ⟨true, true, 7, 30, some 4, false, none, none, none, none, none,
      SName.time⟩ ⟨false, 1500, 7, 30, true, true⟩ 50).sys.current = SName.time ∧
    (doTick ⟨true, true, 7, 30, some 4, false, none, none, none, none, none,
      SName.time⟩ ⟨false, 1500, 7, 30, true, true⟩ 50).effects = [] :=
  C10_button_suppresses _ _ 50 rfl rfl (by decide)

/-- C3: a pressed snooze button on an Alarm-state tick at time t sets
snooze_time to t and transitions to Clock with the alarm re-armed by the
Alarm exit; a Clock tick at time now2 with now2 - t at least the 600 s
snooze interval, button released, then transitions back to Alarm. -/
theorem C3_snooze_round_trip (s : Sys) (env env2 : Env) (t now2 : Int)
    (hcur : s.current = SName.alarm)
    (hbtn : env.snooze_button_value = false)
    (ht : t ≠ 0)
    (hbtn2 : env2.snooze_button_value = true)
    (helap : now2 - t ≥ snooze_interval) :
    (doTick s env t).sys.snooze_time = some t ∧
    (doTick s env t).sys.current = SName.time ∧
    (doTick s env t).sys.alarm_armed = true ∧
    (doTick (doTick s env t).sys env2 now2).sys.current = SName.alarm := by
  rw [doTick_alarm s env t hcur, alarmTick_press s env t hbtn]
  refine ⟨by simp, by simp, ?_, ?_⟩
  · rw [change_armed_of_alarm _ _ _ _ (by simp [hcur])]
    simp [truthyTime, ht]
  · rw [doTick_time _ env2 now2 (by simp),
      timeTick_elapse _ env2 now2 hbtn2 (by simp [truthyTime, ht])
        (by simpa using helap),
      change_sys_current]

/-- C3 witness: snooze pressed at t = 15 in the Alarm state, then a Clock
tick at 615 with the button released. -/
theorem C3_witness :
    (doTick sysAlarm envPress 15).sys.snooze_time = some 15 ∧
    (doTick sysAlarm envPress 15).sys.current = SName.time ∧
    (doTick sysAlarm envPress 15).sys.alarm_armed = true ∧
    (doTick (doTick sysAlarm envPress 15).sys envIdle 615).sys.current =
      SName.alarm :=
  C3_snooze_round_trip sysAlarm envPress envIdle 15 615 rfl rfl (by decide) rfl
    (by decide)

/-- C5 counterexample: from the Clock state, a fresh touch on the mugsy
button transitions to Mugsy during the touch dispatch, and the Mugsy tick
of the very same loop iteration transitions back to Clock: two
change_to_state calls are honored within one iteration, against the
claimed at-most-one. -/
theorem C5_cex :
    (loopStep sysFire (some touchMugsy) false envIdle 40).1.effects =
      [Effect.changeState SName.mugsy, Effect.changeState SName.time] ∧
    transCount (loopStep sysFire (some touchMugsy) false envIdle 40).1.effects
      = 2 := by
  exact ⟨by decide, by decide⟩

/-- C5 (amended): each individual handler invocation (one touch dispatch
or one tick dispatch) honors at most one change_to_state, but a loop
iteration is a touch dispatch followed by a tick dispatch on the
possibly-new state, so an iteration can honor up to two transitions. -/
theorem C5_transition_bounds (s : Sys) (env : Env) (t : Option Touch)
    (touched : Bool) (now : Int) :
    transCount (doTouch s t touched now env.light_value).1.effects ≤ 1 ∧
    transCount (doTick s env now).effects ≤ 1 ∧
    transCount (loopStep s t touched env now).1.effects ≤ 2 := by
  refine ⟨touchTrans_le s t touched now env.light_value,
    tickTrans_le s env now, ?_⟩
  show transCount
    ((doTouch s t touched now env.light_value).1.effects ++
      (doTick (doTouch s t touched now env.light_value).1.sys env now).effects)
    ≤ 2
  rw [transCount_append]
  exact Nat.add_le_add (touchTrans_le s t touched now env.light_value)
    (tickTrans_le _ env now)

/-- C6 counterexample: in the Settings state the touch handler acts while
a touch merely remains present: with touched = true (the touch was
already present last iteration) a held touch in the minute zone still
adjusts the minute from 30 to 31 — the handler is level-triggered, not
edge-triggered. -/
theorem C6_cex :
    sysDragMin.alarm_minute = 30 ∧
    (doTouch sysDragMin (some ⟨60, 90, 1⟩) true 0 1500).1.sys.alarm_minute
      = 31 := by
  exact ⟨by decide, by decide⟩

/-- C6 (amended): the Clock, Mugsy and Alarm touch handlers are
edge-triggered — when the touch was already present last iteration, or no
touch is present, they change nothing and emit nothing — and every
handler returns whether a touch is currently present; the Settings
handler is level-triggered (see the counterexample). -/
theorem C6_touch_edge (s : Sys) (t : Option Touch) (touched : Bool)
    (now lightv : Int) :
    ((doTouch s t touched now lightv).2 = t.isSome) ∧
    (s.current ≠ SName.settings → touched = true ∨ t = none →
      (doTouch s t touched now lightv).1 = ⟨s, []⟩) := by
  constructor
  · unfold doTouch
    cases hc : s.current <;> rfl
  · intro hset hor
    cases hc : s.current
    case time =>
      unfold doTouch
      rw [hc]
      exact timeTouch_idle s t touched now lightv hor
    case mugsy =>
      unfold doTouch
      rw [hc]
      exact timeTouch_idle s t touched now lightv hor
    case alarm =>
      unfold doTouch
      rw [hc]
      exact alarmTouch_idle s t touched now lightv hor
    case settings => exact absurd hc hset

/-- C6 witness: a held touch (touched = true) on the clock screen changes
nothing. -/
theorem C6_witness :
    (doTouch sysFire (some touchMugsy) true 40 1500).1 = ⟨sysFire, []⟩ :=
  (C6_touch_edge sysFire (some touchMugsy) true 40 1500).2 (by decide)
    (Or.inl rfl)

/-- C7 counterexample: entering the Alarm state at time 10 and ticking at
time 11 — the first tick since entry, snooze button released — plays
nothing, where the claim requires audio on the first tick after entry;
the first sound happens only once the 5 s interval has strictly elapsed
(tick at 16). -/
theorem C7_cex :
    (doTick (stateEnter (stateExit sysFire) SName.alarm 10 1500) envIdle 11).effects
      = [] ∧
    (doTick (stateEnter (stateExit sysFire) SName.alarm 10 1500) envIdle 16).effects
      = [Effect.playFile] := by
  exact ⟨by decide, by decide⟩

/-- C7 (amended): on an Alarm-state tick with the snooze button not
pressed, audio plays and the last-sounded time is stamped to now iff the
stored last-sounded time is truthy and now minus it STRICTLY exceeds the
5 s alarm interval; otherwise the tick changes nothing. Entry stamps the
last-sounded time with the entry time, so the first tick after entry is
silent and the first sound comes only after the interval passes. -/
theorem C7_alarm_repeat (s : Sys) (env : Env) (now e lightv : Int)
    (hcur : s.current = SName.alarm)
    (hbtn : env.snooze_button_value = true) :
    ((doTick s env now).effects = [Effect.playFile] ↔
      truthyTime s.sound_alarm_time = true ∧
        now - s.sound_alarm_time.getD 0 > alarm_interval) ∧
    (truthyTime s.sound_alarm_time = true ∧
        now - s.sound_alarm_time.getD 0 > alarm_interval →
      (doTick s env now).sys.sound_alarm_time = some now) ∧
    (¬ (truthyTime s.sound_alarm_time = true ∧
        now - s.sound_alarm_time.getD 0 > alarm_interval) →
      doTick s env now = ⟨s, []⟩) ∧
    (stateEnter s SName.alarm e lightv).sound_alarm_time = some e := by
  rw [doTick_alarm s env now hcur]
  by_cases h : truthyTime s.sound_alarm_time = true ∧
    now - s.sound_alarm_time.getD 0 > alarm_interval
  · rw [alarmTick_sound s env now hbtn h]
    exact ⟨by simp [h], fun _ => by simp, fun hn => absurd h hn, rfl⟩
  · rw [alarmTick_quiet s env now hbtn h]
    exact ⟨by simp [h], fun hh => absurd hh h, fun _ => rfl, rfl⟩

/-- C7 witness: the repeat branch fires at sysAlarm (last sounded 10) on
a tick at 16. -/
theorem C7_witness :
    (doTick sysAlarm envIdle 16).effects = [Effect.playFile] :=
  (C7_alarm_repeat sysAlarm envIdle 16 0 0 rfl rfl).1.mpr (by decide)

/-- C8: on a Clock tick that reaches the refresh blocks (button not
pressed, no snooze re-fire), a failed time-sync leaves refresh_time
unstamped and a failed weather fetch leaves weather_refresh unstamped;
the failure is absorbed at the call site and the tick still completes —
the display-update gate downstream is still evaluated and stamps
update_time as usual — so the fetch is retried at the next eligible tick,
and the timestamps advance exactly on success. -/
theorem C8_transient_failure (s : Sys) (env : Env) (now : Int)
    (hcur : s.current = SName.time)
    (hbtn : env.snooze_button_value = true)
    (hne : ¬ (truthyTime s.snooze_time = true ∧
      now - s.snooze_time.getD 0 ≥ snooze_interval)) :
    (env.time_sync_ok = false →
      (doTick s env now).sys.refresh_time = s.refresh_time) ∧
    (env.weather_ok = false →
      (doTick s env now).sys.weather_refresh = s.weather_refresh) ∧
    (env.time_sync_ok = true → (doTick s env now).sys.refresh_time =
      (if timerGate s.refresh_time now 3600 = true then some now
       else s.refresh_time)) ∧
    (env.weather_ok = true → (doTick s env now).sys.weather_refresh =
      (if timerGate s.weather_refresh now 600 = true then some now
       else s.weather_refresh)) ∧
    ((doTick s env now).sys.update_time =
      (if timerGate s.update_time now 30 = true then some now
       else s.update_time)) := by
  rw [doTick_time s env now hcur, timeTick_noElapse s env now hbtn hne]
  refine ⟨?_, ?_, ?_, ?_, ?_⟩
  · intro hok
    rw [displayStep_sysRefresh, midSteps_refreshTime]
    simp [hok]
  · intro hok
    rw [displayStep_sysWeather, midSteps_weatherTime]
    simp [hok]
  · intro hok
    rw [displayStep_sysRefresh, midSteps_refreshTime]
    simp [hok]
  · intro hok
    rw [displayStep_sysWeather, midSteps_weatherTime]
    simp [hok]
  · rw [displayStep_sysUpdate]
    simp

/-- C8 witness: with both network operations failing, the last refresh
timestamps survive the tick unchanged while update_time is stamped. -/
theorem C8_witness :
    (doTick sysSync envFail 5000).sys.refresh_time = sysSync.refresh_time ∧
    (doTick sysSync envFail 5000).sys.weather_refresh =
      sysSync.weather_refresh :=
  ⟨(C8_transient_failure sysSync envFail 5000 rfl rfl (by decide)).1 rfl,
    (C8_transient_failure sysSync envFail 5000 rfl rfl (by decide)).2.1 rfl⟩

/-- C9 counterexample: the on-button region and the hour zone overlap at
x = 240 (the hit regions are closed): a touch at (240, 50) lies inside
the hour zone with a smaller y than the previous touch (100), so the
claim requires the hour 5 to become 6, but the handler routes it to the
enable button first and leaves the hour at 5. -/
theorem C9_cex :
    touch_in_button ⟨240, 50, 1⟩ hoursButton = true ∧
    (50 : Int) < 100 ∧
    sysDrag.alarm_hour = 5 ∧
    (doTouch sysDrag (some ⟨240, 50, 1⟩) true 0 1500).1.sys.alarm_hour = 5 := by
  exact ⟨by decide, by decide, by decide, by decide⟩

/-- C9 (amended): in the Settings state with the alarm enabled, for a
touch that misses the enable/return/disable buttons (which take
priority): with no retained previous touch the fields are unchanged and
the touch is retained; with a retained previous touch, inside the hour
zone a smaller y increments the hour mod 24 and a larger y decrements it
mod 24 (the minute untouched); inside the minute zone and not the hour
zone (the hour zone wins their shared x = 120 edge) the minute is
adjusted likewise mod 60 (the hour untouched); an unchanged y adjusts
nothing. -/
theorem C9_drag_adjust (s : Sys) (tt pt : Touch) (touched : Bool)
    (now lightv : Int)
    (hcur : s.current = SName.settings)
    (hen : s.alarm_enabled = true)
    (h0 : touch_in_button tt onButton = false)
    (h1 : touch_in_button tt returnButton = false)
    (h2 : touch_in_button tt offButton = false) :
    (s.previous_touch = none →
      (doTouch s (some tt) touched now lightv).1.sys.alarm_hour = s.alarm_hour ∧
      (doTouch s (some tt) touched now lightv).1.sys.alarm_minute =
        s.alarm_minute ∧
      (doTouch s (some tt) touched now lightv).1.sys.previous_touch =
        some tt) ∧
    (s.previous_touch = some pt → touch_in_button tt hoursButton = true →
      (doTouch s (some tt) touched now lightv).1.sys.alarm_hour =
        (if tt.y < pt.y then (s.alarm_hour + 1) % 24
         else if tt.y > pt.y then (s.alarm_hour - 1) % 24
         else s.alarm_hour) ∧
      (doTouch s (some tt) touched now lightv).1.sys.alarm_minute =
        s.alarm_minute) ∧
    (s.previous_touch = some pt → touch_in_button tt hoursButton = false →
      touch_in_button tt minutesButton = true →
      (doTouch s (some tt) touched now lightv).1.sys.alarm_minute =
        (if tt.y < pt.y then (s.alarm_minute + 1) % 60
         else if tt.y > pt.y then (s.alarm_minute - 1) % 60
         else s.alarm_minute) ∧
      (doTouch s (some tt) touched now lightv).1.sys.alarm_hour =
        s.alarm_hour) := by
  have hd : (doTouch s (some tt) touched now lightv).1 =
      settingTouch s (some tt) touched now lightv := by
    unfold doTouch
    rw [hcur]
  rw [hd]
  unfold settingTouch
  dsimp only
  rw [if_neg (show ¬ touch_in_button tt onButton = true by simp [h0]),
    if_neg (show ¬ touch_in_button tt returnButton = true by simp [h1]),
    if_neg (show ¬ touch_in_button tt offButton = true by simp [h2]),
    if_pos (show s.alarm_enabled = true from hen)]
  refine ⟨?_, ?_, ?_⟩
  · intro hp
    rw [hp]
    exact ⟨rfl, rfl, rfl⟩
  · intro hp hh
    rw [hp]
    dsimp only
    rw [if_pos hh]
    constructor
    · split
      · simp
      · split
        · simp
        · simp
    · split
      · simp
      · split
        · simp
        · simp
  · intro hp hh hm
    rw [hp]
    dsimp only
    rw [if_neg (show ¬ touch_in_button tt hoursButton = true by simp [hh]),
      if_pos hm]
    constructor
    · split
      · simp
      · split
        · simp
        · simp
    · split
      · simp
      · split
        · simp
        · simp

/-- C9 witness: a drag upward (y 100 to 90) in the hour zone increments
the hour of sysDrag from 5 to 6, leaving the minute alone. -/
theorem C9_witness :
    (doTouch sysDrag (some ⟨200, 90, 1⟩) false 0 1500).1.sys.alarm_hour = 6 ∧
    (doTouch sysDrag (some ⟨200, 90, 1⟩) false 0 1500).1.sys.alarm_minute
      = 30 := by
  have h := (C9_drag_adjust sysDrag ⟨200, 90, 1⟩ ⟨200, 100, 1⟩ false 0 1500
    rfl rfl (by decide) (by decide) (by decide)).2.1 rfl (by decide)
  refine ⟨?_, ?_⟩
  · rw [h.1]
    decide
  · rw [h.2]
    decide

end AlarmClock
